import Mathlib

/-!
Verification of the AmbientCG Blender add-on (`src/__init__.py`)

Shallow embedding of the add-on's pagination controller, texture processor,
material node-graph builder and unused-texture marker, with theorems settling
the specification claims.

Modelling conventions:
* Blender `IntProperty` scene fields hold Python integers; they are embedded
  as `Int`.  Python's floor division `//` coincides with Lean's `Int` division
  (`Int.ediv`) whenever the divisor is positive, which is the only case that
  occurs here (divisor 40).
* Python floats (the resize multiplier) are embedded as exact rationals `ℚ`;
  every concrete value used in a theorem below is exactly representable as a
  binary double, so the rational computation agrees with the float one.
* The file system is embedded as a list of (path, width, height) entries;
  image dimensions ride along so that the texture processor can be modelled
  end to end.  `Path.rename` is position-preserving on this list.
* The mutually recursive UI callbacks (`on_page_change` and
  `MATERIAL_OT_fetch_browser_materials.execute`, which re-enter one another
  through Blender's property-update mechanism) are embedded as one
  structurally recursive function over an explicit fuel parameter; fuel
  `k + 2` is enough to reproduce the code exactly, because the only nested
  re-entry is stopped immediately by the `_updating_page` guard.
-/

/-- Constant `MATERIALS_PER_PAGE = 40` from the source. -/
def MATERIALS_PER_PAGE : Int := 40

/-- The pagination-related scene state plus the global `_updating_page` flag.
Fields mirror the `Scene` properties `ambientcg_goto_page`,
`ambientcg_browser_offset`, `ambientcg_browser_total`,
`ambientcg_current_page`, `ambientcg_total_pages`. -/
structure BrowserState where
  goto_page : Int
  browser_offset : Int
  browser_total : Int
  current_page : Int
  total_pages : Int
  updating_page : Bool
deriving DecidableEq

/-- Which callback is being entered: the `ambientcg_goto_page` update handler
`on_page_change`, or `MATERIAL_OT_fetch_browser_materials.execute` (with its
`reset_to_first_page` operator property). -/
inductive BrowserCall where
  | pageChange : BrowserCall
  | fetchMaterials (reset_to_first_page : Bool) : BrowserCall
deriving DecidableEq

/-- One run of the pagination callbacks.  `resp` is the (stable) server
response: `some total` models a successful request whose JSON carried
`numberOfResults = total`; `none` models a transport/parse failure, in which
case `execute` reports an error and returns `CANCELLED` having changed none of
the pagination fields set inside the `try` block.

Writing to the scene property `ambientcg_goto_page` first clamps the value to
the property's declared minimum 1 and then synchronously invokes its update
callback `on_page_change`; both writes performed by `execute` happen with
`_updating_page` set, so the nested callback returns at its guard. -/
def browserRun (resp : Option Int) : Nat → BrowserCall → BrowserState → BrowserState
  | 0, _, s => s
  | fuel + 1, .pageChange, s =>
    if s.updating_page then s
    else
      let s1 := { s with updating_page := true }
      let page : Int := s1.goto_page
      let page : Int := if page < 1 then 1
        else if (0 : Int) < s1.total_pages ∧ s1.total_pages < page then s1.total_pages
        else page
      let s2 := { s1 with browser_offset := (page - 1) * MATERIALS_PER_PAGE }
      let s3 := browserRun resp fuel (.fetchMaterials false) s2
      { s3 with updating_page := false }
  | fuel + 1, .fetchMaterials reset, s =>
    let s1 :=
      if reset then
        let sa := { s with browser_offset := 0, updating_page := true }
        let sb := browserRun resp fuel .pageChange { sa with goto_page := max 1 1 }
        { sb with updating_page := false }
      else s
    match resp with
    | none => s1
    | some total =>
      let s2 := { s1 with browser_total := total }
      let newCurrent := s2.browser_offset / MATERIALS_PER_PAGE + 1
      let newTotalPages := max 1 ((total + MATERIALS_PER_PAGE - 1) / MATERIALS_PER_PAGE)
      let s3 := { s2 with current_page := newCurrent, total_pages := newTotalPages,
                          updating_page := true }
      let s4 := browserRun resp fuel .pageChange { s3 with goto_page := max 1 newCurrent }
      { s4 with updating_page := false }

/-- Callback `on_page_change` returns at its guard whenever `_updating_page` is set,
at any fuel. -/
theorem browserRun_guarded (resp : Option Int) (fuel : Nat) (s : BrowserState)
    (h : s.updating_page = true) : browserRun resp fuel .pageChange s = s := by
  cases fuel <;> simp [browserRun, h]

/-- C1: After every successful browser fetch with page size 40, the pagination
state satisfies `current_page = offset // 40 + 1` and
`total_pages = ceil(total / 40)` computed by integer arithmetic, and for every
total count including `total = 0`, `total_pages` is at least 1. -/
theorem c1_pagination_invariant (t : Int) (fuel : Nat) (reset : Bool)
    (s : BrowserState) (ht : 0 ≤ t) :
    ((browserRun (some t) (fuel + 1) (.fetchMaterials reset) s).current_page =
      (browserRun (some t) (fuel + 1) (.fetchMaterials reset) s).browser_offset /
        MATERIALS_PER_PAGE + 1) ∧
    1 ≤ (browserRun (some t) (fuel + 1) (.fetchMaterials reset) s).total_pages ∧
    (t = 0 → (browserRun (some t) (fuel + 1) (.fetchMaterials reset) s).total_pages = 1) ∧
    (0 < t →
      MATERIALS_PER_PAGE *
          ((browserRun (some t) (fuel + 1) (.fetchMaterials reset) s).total_pages - 1) < t ∧
      t ≤ MATERIALS_PER_PAGE *
          (browserRun (some t) (fuel + 1) (.fetchMaterials reset) s).total_pages) := by
  cases reset <;>
    simp [browserRun, browserRun_guarded, MATERIALS_PER_PAGE] <;>
    omega

/-- Witness for C1 at `total = 105`, `offset = 40`:
`current_page = 2`, `total_pages = 3`. -/
theorem c1_pagination_invariant_witness :
    (0 : Int) ≤ 105 ∧
    (((browserRun (some 105) 1 (.fetchMaterials false)
        ⟨2, 40, 0, 1, 1, false⟩).current_page =
      (browserRun (some 105) 1 (.fetchMaterials false)
        ⟨2, 40, 0, 1, 1, false⟩).browser_offset / MATERIALS_PER_PAGE + 1) ∧
    1 ≤ (browserRun (some 105) 1 (.fetchMaterials false)
        ⟨2, 40, 0, 1, 1, false⟩).total_pages ∧
    ((105 : Int) = 0 → (browserRun (some 105) 1 (.fetchMaterials false)
        ⟨2, 40, 0, 1, 1, false⟩).total_pages = 1) ∧
    ((0 : Int) < 105 →
      MATERIALS_PER_PAGE * ((browserRun (some 105) 1 (.fetchMaterials false)
        ⟨2, 40, 0, 1, 1, false⟩).total_pages - 1) < 105 ∧
      (105 : Int) ≤ MATERIALS_PER_PAGE * (browserRun (some 105) 1 (.fetchMaterials false)
        ⟨2, 40, 0, 1, 1, false⟩).total_pages)) :=
  ⟨by decide, c1_pagination_invariant 105 0 false ⟨2, 40, 0, 1, 1, false⟩ (by decide)⟩

/-- C2: For every requested goto-page value and every (reachable, hence
positive) `total_pages`, the page-change handler clamps the request into
`[1, total_pages]` before computing `offset = (page - 1) * 40`; the fetch then
confirms that page back into `current_page` and the page field. -/
theorem c2_goto_page_clamped (t : Int) (fuel : Nat) (s : BrowserState)
    (hg : s.updating_page = false) (htp : 1 ≤ s.total_pages) :
    (browserRun (some t) (fuel + 2) .pageChange s).browser_offset =
      (max 1 (min s.goto_page s.total_pages) - 1) * MATERIALS_PER_PAGE ∧
    (browserRun (some t) (fuel + 2) .pageChange s).current_page =
      max 1 (min s.goto_page s.total_pages) ∧
    (browserRun (some t) (fuel + 2) .pageChange s).goto_page =
      max 1 (min s.goto_page s.total_pages) := by
  have hclamp : (if s.goto_page < 1 then 1
      else if 0 < s.total_pages ∧ s.total_pages < s.goto_page then s.total_pages
      else s.goto_page) = max 1 (min s.goto_page s.total_pages) := by
    split_ifs <;> omega
  simp [browserRun, hg, hclamp, browserRun_guarded, MATERIALS_PER_PAGE]

/-- Witness for C2, the spec scenario with `total = 105`, `total_pages = 3`:
requesting page 2 yields offset 40; requesting page 4 clamps to page 3 with
offset 80; requesting page 0 clamps to page 1 with offset 0. -/
theorem c2_goto_page_clamped_witness :
    ((browserRun (some 105) 2 .pageChange ⟨2, 0, 105, 1, 3, false⟩).browser_offset =
        (max 1 (min 2 3) - 1) * MATERIALS_PER_PAGE ∧
      (browserRun (some 105) 2 .pageChange ⟨2, 0, 105, 1, 3, false⟩).current_page =
        max 1 (min 2 3) ∧
      (browserRun (some 105) 2 .pageChange ⟨2, 0, 105, 1, 3, false⟩).goto_page =
        max 1 (min 2 3)) ∧
    ((browserRun (some 105) 2 .pageChange ⟨4, 0, 105, 1, 3, false⟩).browser_offset =
        (max 1 (min 4 3) - 1) * MATERIALS_PER_PAGE ∧
      (browserRun (some 105) 2 .pageChange ⟨4, 0, 105, 1, 3, false⟩).current_page =
        max 1 (min 4 3) ∧
      (browserRun (some 105) 2 .pageChange ⟨4, 0, 105, 1, 3, false⟩).goto_page =
        max 1 (min 4 3)) ∧
    ((browserRun (some 105) 2 .pageChange ⟨0, 0, 105, 1, 3, false⟩).browser_offset =
        (max 1 (min 0 3) - 1) * MATERIALS_PER_PAGE ∧
      (browserRun (some 105) 2 .pageChange ⟨0, 0, 105, 1, 3, false⟩).current_page =
        max 1 (min 0 3) ∧
      (browserRun (some 105) 2 .pageChange ⟨0, 0, 105, 1, 3, false⟩).goto_page =
        max 1 (min 0 3)) :=
  ⟨c2_goto_page_clamped 105 0 ⟨2, 0, 105, 1, 3, false⟩ rfl (by decide),
   c2_goto_page_clamped 105 0 ⟨4, 0, 105, 1, 3, false⟩ rfl (by decide),
   c2_goto_page_clamped 105 0 ⟨0, 0, 105, 1, 3, false⟩ rfl (by decide)⟩

/-- C8: While `_updating_page` is set, invoking the page-change handler leaves
the whole pagination state unchanged and triggers no fetch; and the fetch
operation's own guarded write of the confirmed page number back into the page
field never re-invokes the clamp-and-refetch logic — in particular a
non-resetting fetch never moves `browser_offset`. -/
theorem c8_updating_page_guard (resp : Option Int) (fuel : Nat) (s : BrowserState)
    (h : s.updating_page = true) :
    browserRun resp fuel .pageChange s = s ∧
    ∀ (t : Int) (fuel' : Nat) (s' : BrowserState),
      (browserRun (some t) (fuel' + 1) (.fetchMaterials false) s').browser_offset =
        s'.browser_offset := by
  refine ⟨browserRun_guarded resp fuel s h, ?_⟩
  intro t fuel' s'
  simp [browserRun, browserRun_guarded]

/-- Witness for C8: with the guard set, a page-change request for page 7 on a
3-page result set changes nothing. -/
theorem c8_updating_page_guard_witness :
    browserRun (some 105) 5 .pageChange ⟨7, 40, 105, 2, 3, true⟩ =
      ⟨7, 40, 105, 2, 3, true⟩ ∧
    ∀ (t : Int) (fuel' : Nat) (s' : BrowserState),
      (browserRun (some t) (fuel' + 1) (.fetchMaterials false) s').browser_offset =
        s'.browser_offset :=
  c8_updating_page_guard (some 105) 5 ⟨7, 40, 105, 2, 3, true⟩ rfl

/-! ## File system and texture processor

The file system visible to the add-on is embedded as a list of
`(path, width, height)` entries: PNG files with their pixel dimensions.
Paths are absolute strings with `/` separators.  `Path.rename` maps the
entry's name in place (position-preserving), which matches POSIX rename for
the unique-name file systems the add-on manipulates. -/

structure FSys where
  entries : List (String × Int × Int)
deriving DecidableEq

/-- Python `Path.exists()` for this model. -/
def FSys.existsPath (fs : FSys) (p : String) : Bool :=
  fs.entries.any (fun e => e.1 = p)

/-- Host call `bpy.data.images.load`: the dimensions of the image stored at `p`. -/
def FSys.lookup (fs : FSys) (p : String) : Option (Int × Int) :=
  (fs.entries.find? (fun e => e.1 = p)).map (fun e => e.2)

/-- Python `Path.rename`: the file named `src` is now named `dst`. -/
def FSys.rename (fs : FSys) (src dst : String) : FSys :=
  ⟨fs.entries.map (fun e => if e.1 = src then (dst, e.2) else e)⟩

/-- Host call `image.save()` at filepath `p`: overwrite if present, else create. -/
def FSys.save (fs : FSys) (p : String) (d : Int × Int) : FSys :=
  if fs.existsPath p then ⟨fs.entries.map (fun e => if e.1 = p then (p, d) else e)⟩
  else ⟨fs.entries ++ [(p, d)]⟩

/-- Function `restore_unused_texture(file_path)` from the source: if
`str(file_path) + ".unused"` exists, rename it back to `file_path` and
return `True`; otherwise return `False`. -/
def restore_unused_texture (fs : FSys) (file_path : String) : FSys × Bool :=
  let unused_path := file_path ++ ".unused"
  if fs.existsPath unused_path then (fs.rename unused_path file_path, true)
  else (fs, false)

/-- The final path component of a path string (everything after the last `/`). -/
def pathBasename (p : String) : String :=
  ⟨(p.data.reverse.takeWhile (fun c => c ≠ '/')).reverse⟩

/-- Python `pathlib.Path(p).stem`: the final component without its last suffix; a
suffix exists only when the last dot of the name is neither its first nor its
last character. -/
def pathStem (p : String) : String :=
  let b := (pathBasename p).data
  match (b.enum.filter (fun x => x.2 = '.')).getLast? with
  | none => ⟨b⟩
  | some x => if 0 < x.1 ∧ x.1 < b.length - 1 then ⟨b.take x.1⟩ else ⟨b⟩

/-- Python `str.split(sep)` for a one-character separator. -/
def splitOnChar (c : Char) : List Char → List (List Char)
  | [] => [[]]
  | x :: xs =>
    let r := splitOnChar c xs
    if x = c then [] :: r
    else
      match r with
      | [] => [[x]]
      | h :: t => (x :: h) :: t

/-- Expression `source_path.stem.split('_')[-1]`: the texture channel kind encoded in the
trailing underscore-delimited token of the file name. -/
def texture_type_of (source_path : String) : String :=
  ⟨(splitOnChar '_' (pathStem source_path).data).getLastD []⟩

/-- Decimal digits of a natural number (fuel-indexed so that the kernel can
evaluate it; `n + 1` fuel always suffices). -/
def natToCharsAux : Nat → Nat → List Char
  | 0, _ => []
  | fuel + 1, n =>
    if n < 10 then [Nat.digitChar n]
    else natToCharsAux fuel (n / 10) ++ [Nat.digitChar (n % 10)]

/-- Decimal rendering of a natural number. -/
def natStr (n : Nat) : String :=
  ⟨natToCharsAux (n + 1) n⟩

/-- Python `f"{x:.2f}"` for the (nonnegative, property-bounded 0.01–4.0)
resize multiplier: the value rounded to the nearest hundredth, rendered with
two decimal places.  (CPython rounds exact binary half-hundredths to even; no
value used below is such a tie.) -/
def formatFix2 (q : ℚ) : String :=
  let c : Int := round (q * 100)
  let n : Nat := c.toNat
  natStr (n / 100) ++ "." ++ (if n % 100 < 10 then "0" else "") ++ natStr (n % 100)

/-- Python `int()` applied to a rational: truncation toward zero. -/
def pyTrunc (q : ℚ) : Int :=
  if q < 0 then -⌊-q⌋ else ⌊q⌋

/-- Function `get_texture_path(path, use_relative)`: returns `bpy.path.relpath(path)`
when relative paths are requested and a .blend file is saved, else the path
itself.  The relpath conversion is a host path-syntax transformation that is a
deterministic function of the path; it is modelled as the identity. -/
def get_texture_path (path : String) (use_relative : Bool) : String :=
  path

/-- Output name `f"{material_name}_{texture_type}_{resize_multiplier:.2f}.png"` joined
under the output folder. -/
def output_path_for (source_path output_folder material_name : String)
    (resize_multiplier : ℚ) : String :=
  output_folder ++ "/" ++ material_name ++ "_" ++ texture_type_of source_path ++ "_" ++
    formatFix2 resize_multiplier ++ ".png"

/-- The outcome of `MATERIAL_OT_fetch_and_create.process_texture`: the file
system afterwards, the returned path, whether the source image was loaded
(`bpy.data.images.load`), and whether an output file was written. -/
structure ProcResult where
  fs : FSys
  result_path : String
  loaded_image : Bool
  wrote_file : Bool
deriving DecidableEq

/-- Method `MATERIAL_OT_fetch_and_create.process_texture`: restore a marked-unused
source, derive the output name from material name, channel kind and formatted
scale, restore a marked-unused destination, return early if the destination
exists, else load the source, rescale when the multiplier differs from 1.0 by
more than 0.001 (target dimensions `int(dim * multiplier)`), and save as PNG.
A missing source file makes the host's image load raise; that branch records
the attempted load and writes nothing. -/
def process_texture (fs : FSys) (source_path output_folder : String)
    (resize_multiplier : ℚ) (use_relative_paths : Bool) (material_name : String) :
    ProcResult :=
  let fs1 := (restore_unused_texture fs source_path).1
  let output_path := output_path_for source_path output_folder material_name resize_multiplier
  let fs2 := (restore_unused_texture fs1 output_path).1
  if fs2.existsPath output_path then
    ⟨fs2, get_texture_path output_path use_relative_paths, false, false⟩
  else
    match fs2.lookup source_path with
    | none => ⟨fs2, get_texture_path output_path use_relative_paths, true, false⟩
    | some wh =>
      let new_width := pyTrunc ((wh.1 : ℚ) * resize_multiplier)
      let new_height := pyTrunc ((wh.2 : ℚ) * resize_multiplier)
      let dims := if |resize_multiplier - 1| > 1/1000 then (new_width, new_height) else wh
      ⟨fs2.save output_path dims, get_texture_path output_path use_relative_paths, true, true⟩

/-! ### Helper lemmas about the file-system model -/

/-- No path equals itself with the `.unused` suffix appended. -/
theorem ne_append_unused (p : String) : p ≠ p ++ ".unused" := by
  intro h
  have hl := congrArg String.length h
  rw [String.length_append] at hl
  have : (".unused" : String).length = 7 := rfl
  omega

/-- A path ending in `.png` never equals a path ending in `.unused`. -/
theorem append_png_ne_append_unused (a b : String) : a ++ ".png" ≠ b ++ ".unused" := by
  intro h
  have hd : (a ++ ".png").data = (b ++ ".unused").data := by rw [h]
  rw [String.data_append, String.data_append] at hd
  have e1 : (".png" : String).data = ['.', 'p', 'n', 'g'] := rfl
  have e2 : (".unused" : String).data = ['.', 'u', 'n', 'u', 's', 'e', 'd'] := rfl
  rw [e1, e2] at hd
  have h2 := congrArg List.reverse hd
  rw [List.reverse_append, List.reverse_append] at h2
  simp at h2

/-- A file system has no file named `q` exactly when no entry carries that
name. -/
theorem existsPath_eq_false_iff (fs : FSys) (q : String) :
    fs.existsPath q = false ↔ ∀ e ∈ fs.entries, e.1 ≠ q := by
  simp [FSys.existsPath]

/-- Renaming `src` away removes every entry named `src` (when the new name
differs). -/
theorem existsPath_rename_self (fs : FSys) (src dst : String) (h : dst ≠ src) :
    (fs.rename src dst).existsPath src = false := by
  rw [existsPath_eq_false_iff]
  intro e he
  simp only [FSys.rename] at he
  rcases List.mem_map.mp he with ⟨e', _, rfl⟩
  by_cases h' : e'.1 = src <;> simp [h', h]

/-- Renaming introduces no name other than `dst`. -/
theorem existsPath_rename_other (fs : FSys) (src dst q : String)
    (hq : fs.existsPath q = false) (hne : q ≠ dst) :
    (fs.rename src dst).existsPath q = false := by
  rw [existsPath_eq_false_iff] at hq ⊢
  intro e he
  simp only [FSys.rename] at he
  rcases List.mem_map.mp he with ⟨e', he', rfl⟩
  by_cases h' : e'.1 = src <;> simp [h']
  · exact Ne.symm hne
  · exact hq e' he'

/-- Saving at `p` introduces no name other than `p`. -/
theorem existsPath_save_other (fs : FSys) (p : String) (d : Int × Int) (q : String)
    (hq : fs.existsPath q = false) (hne : q ≠ p) :
    (fs.save p d).existsPath q = false := by
  have hall := (existsPath_eq_false_iff fs q).mp hq
  unfold FSys.save
  by_cases hp : fs.existsPath p <;> simp only [hp, if_true, if_false] <;>
    rw [existsPath_eq_false_iff] <;> intro e he
  · rcases List.mem_map.mp he with ⟨e', he', rfl⟩
    by_cases h' : e'.1 = p <;> simp [h']
    · exact Ne.symm hne
    · exact hall e' he'
  · rcases List.mem_append.mp he with he' | he'
    · exact hall e he'
    · simp at he'
      rw [he']
      exact Ne.symm hne

/-- Running `find?` by name over a list with no entry named `p` followed by a fresh
`(p, d)` entry yields that entry. -/
theorem find?_name_append_fresh (l : List (String × Int × Int)) (p : String)
    (d : Int × Int) (h : ∀ e ∈ l, e.1 ≠ p) :
    (l ++ [(p, d)]).find? (fun e => e.1 = p) = some (p, d) := by
  induction l with
  | nil => simp [List.find?]
  | cons e l ih =>
    have h1 : e.1 ≠ p := h e (by simp)
    simp only [List.cons_append, List.find?, h1, decide_eq_true_eq, if_neg,
      decide_eq_false h1]
    exact ih (fun e' he' => h e' (by simp [he']))

/-- Saving at a fresh path `p` makes the saved dimensions visible at `p`. -/
theorem lookup_save_fresh (fs : FSys) (p : String) (d : Int × Int)
    (hp : fs.existsPath p = false) :
    (fs.save p d).lookup p = some d := by
  have hall := (existsPath_eq_false_iff fs p).mp hp
  unfold FSys.save
  simp only [hp, Bool.false_eq_true, if_false]
  simp [FSys.lookup, find?_name_append_fresh fs.entries p d hall]

/-- Applying `restore_unused_texture` to a path whose `.unused` sibling is absent is a
no-op. -/
theorem restore_absent (fs : FSys) (p : String)
    (h : fs.existsPath (p ++ ".unused") = false) :
    restore_unused_texture fs p = (fs, false) := by
  simp [restore_unused_texture, h]

/-- After `restore_unused_texture fs p`, no `.unused` sibling of `p` remains. -/
theorem restore_no_unused (fs : FSys) (p : String) :
    ((restore_unused_texture fs p).1).existsPath (p ++ ".unused") = false := by
  unfold restore_unused_texture
  by_cases h : fs.existsPath (p ++ ".unused") <;> simp [h]
  exact existsPath_rename_self fs _ p (ne_append_unused p)

/-- The call `restore_unused_texture fs p` introduces no name other than `p`. -/
theorem restore_preserves_absent (fs : FSys) (p q : String)
    (hq : fs.existsPath q = false) (hne : q ≠ p) :
    ((restore_unused_texture fs p).1).existsPath q = false := by
  unfold restore_unused_texture
  by_cases h : fs.existsPath (p ++ ".unused") <;> simp [h]
  · exact existsPath_rename_other fs _ p q hq hne
  · exact hq

/-- The path returned by `process_texture` is always the derived output path. -/
theorem process_texture_result_path (fs : FSys) (src folder : String) (m : ℚ)
    (rel : Bool) (name : String) :
    (process_texture fs src folder m rel name).result_path =
      output_path_for src folder name m := by
  simp only [process_texture, get_texture_path]
  split
  · rfl
  · split <;> rfl

/-- After `process_texture`, neither the source's nor the destination's
`.unused` sibling exists (both were restored, and only a `.png` is written). -/
theorem process_texture_no_unused (fs : FSys) (src folder : String) (m : ℚ)
    (rel : Bool) (name : String) :
    ((process_texture fs src folder m rel name).fs).existsPath (src ++ ".unused") = false ∧
    ((process_texture fs src folder m rel name).fs).existsPath
      (output_path_for src folder name m ++ ".unused") = false := by
  have hform : output_path_for src folder name m =
      (folder ++ "/" ++ name ++ "_" ++ texture_type_of src ++ "_" ++ formatFix2 m) ++
        ".png" := rfl
  have hsrcne : src ++ ".unused" ≠ output_path_for src folder name m := by
    rw [hform]
    exact fun h => append_png_ne_append_unused _ src h.symm
  have houtne : output_path_for src folder name m ++ ".unused" ≠
      output_path_for src folder name m := fun h => ne_append_unused _ h.symm
  have A1 : (((restore_unused_texture ((restore_unused_texture fs src).1)
      (output_path_for src folder name m)).1)).existsPath (src ++ ".unused") = false :=
    restore_preserves_absent _ _ _ (restore_no_unused fs src) hsrcne
  have A2 : (((restore_unused_texture ((restore_unused_texture fs src).1)
      (output_path_for src folder name m)).1)).existsPath
        (output_path_for src folder name m ++ ".unused") = false :=
    restore_no_unused _ _
  simp only [process_texture]
  split
  · exact ⟨A1, A2⟩
  · split
    · exact ⟨A1, A2⟩
    · exact ⟨existsPath_save_other _ _ _ _ A1 hsrcne,
        existsPath_save_other _ _ _ _ A2 houtne⟩

/-- C5: Invoking texture processing a second time when the derived output file
already exists returns the same output path as the first invocation, leaves
the file system unchanged, loads no image and writes no file. -/
theorem c5_process_texture_idempotent (fs : FSys) (src folder : String) (m : ℚ)
    (rel : Bool) (name : String)
    (h : ((process_texture fs src folder m rel name).fs).existsPath
        ((process_texture fs src folder m rel name).result_path) = true) :
    process_texture ((process_texture fs src folder m rel name).fs)
        src folder m rel name =
      ⟨(process_texture fs src folder m rel name).fs,
        (process_texture fs src folder m rel name).result_path, false, false⟩ := by
  obtain ⟨A1, A2⟩ := process_texture_no_unused fs src folder m rel name
  have hpath := process_texture_result_path fs src folder m rel name
  rw [hpath] at h ⊢
  generalize hQ : process_texture fs src folder m rel name = P at A1 A2 h ⊢
  simp only [process_texture, restore_absent _ _ A1, restore_absent _ _ A2,
    h, if_true, get_texture_path]

/-- Elements of the rename/restore round trip cancel when no `.unused`
sibling was present initially. -/
theorem map_rename_unused_cancel (l : List (String × Int × Int)) (p : String)
    (hall : ∀ e ∈ l, e.1 ≠ p ++ ".unused") :
    (l.map (fun e => if e.1 = p then (p ++ ".unused", e.2) else e)).map
      (fun e => if e.1 = p ++ ".unused" then (p, e.2) else e) = l := by
  induction l with
  | nil => rfl
  | cons e l ih =>
    have he : e.1 ≠ p ++ ".unused" := hall e (by simp)
    have htl := ih (fun e' he' => hall e' (by simp [he']))
    by_cases hp : e.1 = p
    · rcases e with ⟨a, d⟩
      have hp' : a = p := hp
      subst hp'
      simp [htl]
    · simp [hp, he, htl]

theorem rename_unused_cancel (fs : FSys) (p : String)
    (h2 : fs.existsPath (p ++ ".unused") = false) :
    (fs.rename p (p ++ ".unused")).rename (p ++ ".unused") p = fs := by
  rcases fs with ⟨l⟩
  have hall := (existsPath_eq_false_iff ⟨l⟩ (p ++ ".unused")).mp h2
  simp only [FSys.rename, FSys.mk.injEq]
  exact map_rename_unused_cancel l p hall

/-- Renaming `src` to `dst` makes `dst` exist whenever `src` existed. -/
theorem existsPath_rename_to (fs : FSys) (src dst : String)
    (h : fs.existsPath src = true) :
    (fs.rename src dst).existsPath dst = true := by
  simp only [FSys.existsPath, FSys.rename, List.any_eq_true, decide_eq_true_eq] at h ⊢
  rcases h with ⟨e, he, hname⟩
  refine ⟨(dst, e.2), ?_, rfl⟩
  refine List.mem_map.mpr ⟨e, he, ?_⟩
  simp [hname]

/-- C7: Marking a file as unused (appending the fixed `.unused` suffix)
followed by restoring it recovers exactly the original file system, and
texture processing on the marked file system behaves exactly as on the
original (it restores the file before any work). -/
theorem c7_mark_restore_roundtrip (fs : FSys) (p : String)
    (h1 : fs.existsPath p = true) (h2 : fs.existsPath (p ++ ".unused") = false) :
    restore_unused_texture (fs.rename p (p ++ ".unused")) p = (fs, true) ∧
    ∀ (folder : String) (m : ℚ) (rel : Bool) (name : String),
      process_texture (fs.rename p (p ++ ".unused")) p folder m rel name =
        process_texture fs p folder m rel name := by
  have hres : restore_unused_texture (fs.rename p (p ++ ".unused")) p = (fs, true) := by
    unfold restore_unused_texture
    simp only [existsPath_rename_to fs p (p ++ ".unused") h1, if_true,
      rename_unused_cancel fs p h2]
  refine ⟨hres, fun folder m rel name => ?_⟩
  simp only [process_texture, hres, restore_absent fs p h2]

/-- Witness for C7 on a one-file file system. -/
theorem c7_mark_restore_roundtrip_witness :
    restore_unused_texture
        ((⟨[("a.png", 1, 1)]⟩ : FSys).rename "a.png" ("a.png" ++ ".unused")) "a.png" =
      (⟨[("a.png", 1, 1)]⟩, true) ∧
    process_texture ((⟨[("a.png", 1, 1)]⟩ : FSys).rename "a.png" ("a.png" ++ ".unused"))
        "a.png" "f" 1 false "M" =
      process_texture (⟨[("a.png", 1, 1)]⟩ : FSys) "a.png" "f" 1 false "M" :=
  ⟨(c7_mark_restore_roundtrip ⟨[("a.png", 1, 1)]⟩ "a.png" (by decide) (by decide)).1,
   (c7_mark_restore_roundtrip ⟨[("a.png", 1, 1)]⟩ "a.png" (by decide) (by decide)).2
     "f" 1 false "M"⟩

/-- Evaluation fact `f"{1.0:.2f}" = "1.00"`. -/
theorem formatFix2_one : formatFix2 1 = "1.00" := by
  have h : round ((1 : ℚ) * 100) = 100 := by rw [round_eq]; norm_num
  simp only [formatFix2, h]
  decide

/-- The derived output path for the C5 witness input. -/
theorem output_path_cache_one :
    output_path_for "cache/M_Color.png" "cache" "M" 1 = "cache/M_Color_1.00.png" := by
  simp only [output_path_for, formatFix2_one]
  decide

/-- Concrete evaluation of the first `process_texture` run for the C5 witness:
scale 1.0 skips the rescale and copies the 4×4 source to the cache. -/
theorem process_texture_eval_cache :
    process_texture ⟨[("cache/M_Color.png", 4, 4)]⟩ "cache/M_Color.png" "cache" 1
        false "M" =
      ⟨⟨[("cache/M_Color.png", 4, 4), ("cache/M_Color_1.00.png", 4, 4)]⟩,
        "cache/M_Color_1.00.png", true, true⟩ := by
  have hc : (|(1 : ℚ) - 1| > 1 / 1000) = False := by norm_num
  simp only [process_texture, output_path_cache_one, hc, if_false]
  decide

/-- Witness for C5: after the first run has produced
`cache/M_Color_1.00.png`, a second identical invocation returns the same path
with no load and no write. -/
theorem c5_process_texture_idempotent_witness :
    (((process_texture ⟨[("cache/M_Color.png", 4, 4)]⟩ "cache/M_Color.png" "cache" 1
          false "M").fs).existsPath
        ((process_texture ⟨[("cache/M_Color.png", 4, 4)]⟩ "cache/M_Color.png" "cache" 1
          false "M").result_path) = true) ∧
    process_texture ((process_texture ⟨[("cache/M_Color.png", 4, 4)]⟩
          "cache/M_Color.png" "cache" 1 false "M").fs) "cache/M_Color.png" "cache" 1
        false "M" =
      ⟨(process_texture ⟨[("cache/M_Color.png", 4, 4)]⟩ "cache/M_Color.png" "cache" 1
          false "M").fs,
        (process_texture ⟨[("cache/M_Color.png", 4, 4)]⟩ "cache/M_Color.png" "cache" 1
          false "M").result_path, false, false⟩ := by
  have h : ((process_texture ⟨[("cache/M_Color.png", 4, 4)]⟩ "cache/M_Color.png"
      "cache" 1 false "M").fs).existsPath
        ((process_texture ⟨[("cache/M_Color.png", 4, 4)]⟩ "cache/M_Color.png" "cache" 1
          false "M").result_path) = true := by
    rw [process_texture_eval_cache]
    decide
  exact ⟨h, c5_process_texture_idempotent _ _ _ _ _ _ h⟩

/-- Evaluation fact `f"{0.8125:.2f}" = "0.81"` (0.8125 = 13/16 is binary-exact). -/
theorem formatFix2_thirteen_sixteenths : formatFix2 (13 / 16) = "0.81" := by
  have h : round ((13 / 16 : ℚ) * 100) = 81 := by rw [round_eq]; norm_num
  simp only [formatFix2, h]
  decide

/-- The derived output path for the C3 counterexample input. -/
theorem output_path_tex_1316 :
    output_path_for "tex/M_Color.png" "out" "M" (13 / 16) = "out/M_Color_0.81.png" := by
  simp only [output_path_for, formatFix2_thirteen_sixteenths]
  decide

/-- Concrete evaluation of `process_texture` on a 7×7 source at scale
13/16 = 0.8125: the code computes `int(7 * 0.8125) = int(5.6875) = 5`. -/
theorem process_texture_eval_1316 :
    process_texture ⟨[("tex/M_Color.png", 7, 7)]⟩ "tex/M_Color.png" "out" (13 / 16)
        false "M" =
      ⟨⟨[("tex/M_Color.png", 7, 7), ("out/M_Color_0.81.png", 5, 5)]⟩,
        "out/M_Color_0.81.png", true, true⟩ := by
  have e1 : restore_unused_texture ⟨[("tex/M_Color.png", 7, 7)]⟩ "tex/M_Color.png" =
      (⟨[("tex/M_Color.png", 7, 7)]⟩, false) := restore_absent _ _ (by decide)
  have e2 : restore_unused_texture ⟨[("tex/M_Color.png", 7, 7)]⟩ "out/M_Color_0.81.png" =
      (⟨[("tex/M_Color.png", 7, 7)]⟩, false) := restore_absent _ _ (by decide)
  have e3 : FSys.existsPath ⟨[("tex/M_Color.png", 7, 7)]⟩ "out/M_Color_0.81.png" =
      false := by decide
  have e4 : FSys.lookup ⟨[("tex/M_Color.png", 7, 7)]⟩ "tex/M_Color.png" =
      some (7, 7) := by decide
  have hc : (|(13 / 16 : ℚ) - 1| > 1 / 1000) = True := by
    simp only [eq_iff_iff, iff_true]
    rw [abs_sub_comm, abs_of_pos (by norm_num)]
    norm_num
  have htr : pyTrunc (((7 : ℤ) : ℚ) * (13 / 16)) = 5 := by
    unfold pyTrunc
    rw [if_neg (by norm_num)]
    norm_num [Int.floor_eq_iff]
  simp only [process_texture, output_path_tex_1316, e1, e2, e3, Bool.false_eq_true,
    if_false, e4, hc, if_true, htr]
  decide

/-- C3 counterexample: processing a 7×7 image with scale 13/16 = 0.8125
(well outside the 0.001 epsilon) writes a 5×5 output —
`int(7 * 0.8125) = 5` — whereas `round(7 * 0.8125) = 6`, refuting the claim
that rescaled target dimensions are `round(dim * scale)`. -/
theorem c3_round_claim_counterexample :
    (process_texture ⟨[("tex/M_Color.png", 7, 7)]⟩ "tex/M_Color.png" "out" (13 / 16)
        false "M").fs.lookup "out/M_Color_0.81.png" = some (5, 5) ∧
    round (((7 : ℤ) : ℚ) * (13 / 16)) = 6 ∧
    ¬((process_texture ⟨[("tex/M_Color.png", 7, 7)]⟩ "tex/M_Color.png" "out" (13 / 16)
        false "M").fs.lookup "out/M_Color_0.81.png" =
      some (round (((7 : ℤ) : ℚ) * (13 / 16)), round (((7 : ℤ) : ℚ) * (13 / 16)))) := by
  have h6 : round (((7 : ℤ) : ℚ) * (13 / 16)) = 6 := by
    rw [round_eq]
    push_cast
    norm_num
  refine ⟨?_, h6, ?_⟩
  · rw [process_texture_eval_1316]
    decide
  · rw [process_texture_eval_1316, h6]
    decide

/-- C3 (amended): whenever texture processing rescales an image (the scale
differs from 1.0 by more than 0.001), the target width and height are
`int(source_dimension * scale)` — Python truncation toward zero, not
rounding; when the scale is within 0.001 of 1.0 no rescale is performed and
the output has dimensions identical to the source. -/
theorem c3_resize_truncates (fs : FSys) (src folder name : String) (m : ℚ)
    (rel : Bool) (w h : Int)
    (h1 : fs.existsPath (src ++ ".unused") = false)
    (h2 : fs.existsPath (output_path_for src folder name m ++ ".unused") = false)
    (h3 : fs.existsPath (output_path_for src folder name m) = false)
    (h4 : fs.lookup src = some (w, h)) :
    (process_texture fs src folder m rel name).wrote_file = true ∧
    (process_texture fs src folder m rel name).fs.lookup
        (output_path_for src folder name m) =
      some (if |m - 1| > 1 / 1000 then (pyTrunc ((w : ℚ) * m), pyTrunc ((h : ℚ) * m))
        else (w, h)) ∧
    (¬(|m - 1| > 1 / 1000) →
      (process_texture fs src folder m rel name).fs.lookup
          (output_path_for src folder name m) = some (w, h)) := by
  have hlk := lookup_save_fresh fs (output_path_for src folder name m)
    (if |m - 1| > 1 / 1000 then (pyTrunc ((w : ℚ) * m), pyTrunc ((h : ℚ) * m))
      else (w, h)) h3
  simp only [process_texture, restore_absent _ _ h1, restore_absent _ _ h2, h3,
    Bool.false_eq_true, if_false, h4]
  refine ⟨trivial, hlk, fun hm => ?_⟩
  rw [hlk, if_neg hm]

/-- The derived output path for the spec's Rock035 scenario at scale 1.0. -/
theorem output_path_rock_one :
    output_path_for "Rock035_2K-PNG/Rock035_Color.png" "Rock035_2K-PNG" "Rock035" 1 =
      "Rock035_2K-PNG/Rock035_Color_1.00.png" := by
  simp only [output_path_for, formatFix2_one]
  decide

/-- Witness for the amended C3 on the spec's Rock035 scenario: scale 1.0
yields `Rock035_Color_1.00.png` with dimensions identical to the 2048×2048
source. -/
theorem c3_resize_truncates_witness :
    (process_texture ⟨[("Rock035_2K-PNG/Rock035_Color.png", 2048, 2048)]⟩
        "Rock035_2K-PNG/Rock035_Color.png" "Rock035_2K-PNG" 1 false
        "Rock035").wrote_file = true ∧
    (process_texture ⟨[("Rock035_2K-PNG/Rock035_Color.png", 2048, 2048)]⟩
        "Rock035_2K-PNG/Rock035_Color.png" "Rock035_2K-PNG" 1 false "Rock035").fs.lookup
        (output_path_for "Rock035_2K-PNG/Rock035_Color.png" "Rock035_2K-PNG"
          "Rock035" 1) =
      some (if |(1 : ℚ) - 1| > 1 / 1000 then
          (pyTrunc (((2048 : ℤ) : ℚ) * 1), pyTrunc (((2048 : ℤ) : ℚ) * 1))
        else (2048, 2048)) ∧
    (¬(|(1 : ℚ) - 1| > 1 / 1000) →
      (process_texture ⟨[("Rock035_2K-PNG/Rock035_Color.png", 2048, 2048)]⟩
          "Rock035_2K-PNG/Rock035_Color.png" "Rock035_2K-PNG" 1 false "Rock035").fs.lookup
          (output_path_for "Rock035_2K-PNG/Rock035_Color.png" "Rock035_2K-PNG"
            "Rock035" 1) = some (2048, 2048)) :=
  c3_resize_truncates ⟨[("Rock035_2K-PNG/Rock035_Color.png", 2048, 2048)]⟩
    "Rock035_2K-PNG/Rock035_Color.png" "Rock035_2K-PNG" "Rock035" 1 false 2048 2048
    (by decide) (by rw [output_path_rock_one]; decide)
    (by rw [output_path_rock_one]; decide) (by decide)

/-! ## Material node-graph builder (`MATERIAL_OT_fetch_and_create.execute`,
lines 196–282) -/

/-- The five texture channels, in the order the spec lists them. -/
inductive Channel where
  | Color : Channel
  | Metalness : Channel
  | Roughness : Channel
  | NormalGL : Channel
  | Displacement : Channel
deriving DecidableEq

/-- The shader node kinds created by `execute`. -/
inductive Node where
  | outputMaterial : Node
  | principled : Node
  | texCoord : Node
  | mapping : Node
  | texImage (c : Channel) : Node
  | normalMap : Node
  | displacementNode : Node
deriving DecidableEq

/-- Python `str.endswith` on our path strings. -/
def strEndsWith (s suffix : String) : Bool :=
  suffix.data.isSuffixOf s.data

/-- Which channel (if any) a directory entry contributes, given the per-channel
enable toggles — the `if/elif` suffix chain of the `os.listdir` loop. -/
def fileChannel (useColor useMetalness useRoughness useNormal useDisplacement : Bool)
    (file : String) : Option Channel :=
  if strEndsWith file "_Color.png" ∧ useColor then some .Color
  else if strEndsWith file "_Metalness.png" ∧ useMetalness then some .Metalness
  else if strEndsWith file "_Roughness.png" ∧ useRoughness then some .Roughness
  else if strEndsWith file "_NormalGL.png" ∧ useNormal then some .NormalGL
  else if strEndsWith file "_Displacement.png" ∧ useDisplacement then some .Displacement
  else none

/-- The nodes created for one directory entry: an image-texture node for the
matching enabled channel, plus the conversion node for NormalGL (normal map)
and Displacement (height-to-displacement). -/
def nodesForFile (useColor useMetalness useRoughness useNormal useDisplacement : Bool)
    (file : String) : List Node :=
  if strEndsWith file "_Color.png" ∧ useColor then [.texImage .Color]
  else if strEndsWith file "_Metalness.png" ∧ useMetalness then [.texImage .Metalness]
  else if strEndsWith file "_Roughness.png" ∧ useRoughness then [.texImage .Roughness]
  else if strEndsWith file "_NormalGL.png" ∧ useNormal then [.texImage .NormalGL, .normalMap]
  else if strEndsWith file "_Displacement.png" ∧ useDisplacement then
    [.texImage .Displacement, .displacementNode]
  else []

/-- The node creation order of `execute`: output node, principled shader,
texture coordinate, mapping, then the per-file nodes in the order
`os.listdir` returns the extracted files. -/
def buildNodes (files : List String)
    (useColor useMetalness useRoughness useNormal useDisplacement : Bool) : List Node :=
  [.outputMaterial, .principled, .texCoord, .mapping] ++
    files.flatMap (nodesForFile useColor useMetalness useRoughness useNormal useDisplacement)

/-- The image-texture channels of a node list, in creation order. -/
def imageChannels (ns : List Node) : List Channel :=
  ns.filterMap (fun n => match n with | .texImage c => some c | _ => none)

/-- The spec's claimed fixed creation order: one image-texture node per
enabled channel in the order Color, Metalness, Roughness, NormalGL,
Displacement, independent of the directory listing. -/
def claimedFixedChannelOrder
    (useColor useMetalness useRoughness useNormal useDisplacement : Bool) : List Channel :=
  (if useColor then [Channel.Color] else []) ++
    (if useMetalness then [Channel.Metalness] else []) ++
    (if useRoughness then [Channel.Roughness] else []) ++
    (if useNormal then [Channel.NormalGL] else []) ++
    (if useDisplacement then [Channel.Displacement] else [])

/-- C4 counterexample: with every channel enabled and the directory listing
returning the five texture files in reverse order, the image-texture nodes are
created in listing order (Displacement, NormalGL, Roughness, Metalness,
Color), not in the claimed fixed channel order. -/
theorem c4_fixed_order_counterexample :
    imageChannels (buildNodes
        ["M_Displacement.png", "M_NormalGL.png", "M_Roughness.png",
          "M_Metalness.png", "M_Color.png"] true true true true true) =
      [Channel.Displacement, Channel.NormalGL, Channel.Roughness,
        Channel.Metalness, Channel.Color] ∧
    imageChannels (buildNodes
        ["M_Displacement.png", "M_NormalGL.png", "M_Roughness.png",
          "M_Metalness.png", "M_Color.png"] true true true true true) ≠
      claimedFixedChannelOrder true true true true true := by
  constructor
  · decide
  · decide

/-- Function `imageChannels` distributes over list append. -/
theorem imageChannels_append (a b : List Node) :
    imageChannels (a ++ b) = imageChannels a ++ imageChannels b := by
  simp only [imageChannels, List.filterMap_append]

/-- The image-texture channels contributed by one directory entry are exactly
the channel `fileChannel` assigns to it. -/
theorem imageChannels_nodesForFile (a b c d e : Bool) (f : String) :
    imageChannels (nodesForFile a b c d e f) = (fileChannel a b c d e f).toList := by
  simp only [nodesForFile, fileChannel]
  split_ifs <;> rfl

/-- The per-file nodes of the listing loop, projected to channels, follow the
listing order. -/
theorem imageChannels_flatMap (files : List String) (a b c d e : Bool) :
    imageChannels (files.flatMap (nodesForFile a b c d e)) =
      files.filterMap (fileChannel a b c d e) := by
  induction files with
  | nil => rfl
  | cons f fs ih =>
    rw [List.flatMap_cons, imageChannels_append, ih, imageChannels_nodesForFile,
      List.filterMap_cons]
    cases hfc : fileChannel a b c d e f <;> simp [hfc]

/-- C4 (amended): the builder creates the output node, principled shader,
texture-coordinate node and mapping node first, in that order, and then one
image-texture node per file matching an enabled channel — in the order the
files are encountered in the directory listing, not in a fixed channel
order. -/
theorem c4_node_creation_order (files : List String)
    (useColor useMetalness useRoughness useNormal useDisplacement : Bool) :
    (buildNodes files useColor useMetalness useRoughness useNormal
        useDisplacement).take 4 =
      [Node.outputMaterial, Node.principled, Node.texCoord, Node.mapping] ∧
    imageChannels (buildNodes files useColor useMetalness useRoughness useNormal
        useDisplacement) =
      files.filterMap
        (fileChannel useColor useMetalness useRoughness useNormal useDisplacement) := by
  refine ⟨rfl, ?_⟩
  rw [buildNodes, imageChannels_append, imageChannels_flatMap]
  rfl

/-! ## Unused-texture marker (`MATERIAL_OT_mark_unused_textures.execute`) and
the fetch-and-create cache step -/

/-- Blender operator outcome. -/
inductive OpResult where
  | FINISHED : OpResult
  | CANCELLED : OpResult
deriving DecidableEq

/-- The `rglob("*.png")` loop of `MATERIAL_OT_mark_unused_textures.execute`:
skip names already ending in `.unused`, rename every file whose (resolved)
path is absent from the loaded-image set by appending `.unused`, and count
the renames.  Paths are modelled as already-absolute resolved strings. -/
def mark_unused_loop (loaded : List String) : List String → Nat × List (String × String)
  | [] => (0, [])
  | f :: rest =>
    if strEndsWith f ".unused" then mark_unused_loop loaded rest
    else if f ∈ loaded then mark_unused_loop loaded rest
    else
      let r := mark_unused_loop loaded rest
      (r.1 + 1, (f, f ++ ".unused") :: r.2)

/-- The result of the mark-unused operator: status, reported count, and the
performed renames in order. -/
structure MarkResult where
  status : OpResult
  marked_count : Nat
  renames : List (String × String)
deriving DecidableEq

/-- Operator `MATERIAL_OT_mark_unused_textures.execute`: warn and cancel when the
custom folder is not configured (toggle off or empty path) or does not exist,
before any file-system side effect; otherwise run the marking loop and report
the count. -/
def mark_unused_textures (use_custom_folder : Bool) (custom_folder : String)
    (folder_exists : Bool) (loaded_images png_files : List String) : MarkResult :=
  if ¬use_custom_folder ∨ custom_folder = "" then ⟨.CANCELLED, 0, []⟩
  else if ¬folder_exists then ⟨.CANCELLED, 0, []⟩
  else
    let r := mark_unused_loop loaded_images png_files
    ⟨.FINISHED, r.1, r.2⟩

/-- Closed form of the marking loop: exactly the non-`.unused` files outside
the loaded set are renamed, in listing order. -/
theorem mark_unused_loop_eq (loaded files : List String) :
    mark_unused_loop loaded files =
      ((files.filter (fun f => !strEndsWith f ".unused" && decide (f ∉ loaded))).length,
        (files.filter (fun f => !strEndsWith f ".unused" && decide (f ∉ loaded))).map
          (fun f => (f, f ++ ".unused"))) := by
  induction files with
  | nil => rfl
  | cons f fs ih =>
    by_cases h1 : strEndsWith f ".unused" = true
    · simp [mark_unused_loop, h1, ih, List.filter_cons]
    · by_cases h2 : f ∈ loaded
      · simp [mark_unused_loop, h1, h2, ih, List.filter_cons]
      · simp [mark_unused_loop, h1, h2, ih, List.filter_cons]

/-- C6: With the custom folder configured and existing, the operation renames
exactly the listed PNG files outside the loaded-image set (excluding files
already carrying the `.unused` suffix) by appending the suffix, reports their
count, and touches no file from the loaded set. -/
theorem c6_marks_exactly_unloaded (custom_folder : String)
    (loaded png_files : List String) (hfold : custom_folder ≠ "") :
    (mark_unused_textures true custom_folder true loaded png_files).status =
      .FINISHED ∧
    (mark_unused_textures true custom_folder true loaded png_files).renames =
      (png_files.filter (fun f => !strEndsWith f ".unused" && decide (f ∉ loaded))).map
        (fun f => (f, f ++ ".unused")) ∧
    (mark_unused_textures true custom_folder true loaded png_files).marked_count =
      (png_files.filter
        (fun f => !strEndsWith f ".unused" && decide (f ∉ loaded))).length ∧
    ∀ f ∈ loaded, ∀ q,
      (f, q) ∉ (mark_unused_textures true custom_folder true loaded png_files).renames := by
  have hop : mark_unused_textures true custom_folder true loaded png_files =
      ⟨.FINISHED, (mark_unused_loop loaded png_files).1,
        (mark_unused_loop loaded png_files).2⟩ := by
    simp [mark_unused_textures, hfold]
  rw [hop, mark_unused_loop_eq]
  refine ⟨rfl, rfl, rfl, ?_⟩
  intro f hf q hq
  simp only at hq
  rcases List.mem_map.mp hq with ⟨x, hx, hpair⟩
  have hx1 : x = f := congrArg Prod.fst hpair
  subst hx1
  have := List.of_mem_filter hx
  simp [hf] at this

/-- Witness for C6: one loaded file kept, one unloaded file renamed, one
already-suffixed file skipped. -/
theorem c6_marks_exactly_unloaded_witness :
    ("/t" : String) ≠ "" ∧
    ((mark_unused_textures true "/t" true ["/t/keep.png"]
        ["/t/keep.png", "/t/drop.png", "/t/old.png.unused"]).status = .FINISHED ∧
    (mark_unused_textures true "/t" true ["/t/keep.png"]
        ["/t/keep.png", "/t/drop.png", "/t/old.png.unused"]).renames =
      ((["/t/keep.png", "/t/drop.png", "/t/old.png.unused"] : List String).filter
        (fun f => !strEndsWith f ".unused" && decide (f ∉ (["/t/keep.png"] : List String)))).map
        (fun f => (f, f ++ ".unused")) ∧
    (mark_unused_textures true "/t" true ["/t/keep.png"]
        ["/t/keep.png", "/t/drop.png", "/t/old.png.unused"]).marked_count =
      ((["/t/keep.png", "/t/drop.png", "/t/old.png.unused"] : List String).filter
        (fun f => !strEndsWith f ".unused" && decide (f ∉ (["/t/keep.png"] : List String)))).length ∧
    ∀ f ∈ (["/t/keep.png"] : List String), ∀ q,
      (f, q) ∉ (mark_unused_textures true "/t" true ["/t/keep.png"]
        ["/t/keep.png", "/t/drop.png", "/t/old.png.unused"]).renames) :=
  ⟨by decide, c6_marks_exactly_unloaded "/t" ["/t/keep.png"]
    ["/t/keep.png", "/t/drop.png", "/t/old.png.unused"] (by decide)⟩

/-- C9: invoking the mark-unused operation with the custom folder option
disabled, or with an empty custom folder path, or with a non-existing folder,
cancels with no rename and a zero count. -/
theorem c9_unconfigured_folder_cancels (use_custom_folder : Bool)
    (custom_folder : String) (folder_exists : Bool) (loaded png_files : List String)
    (h : use_custom_folder = false ∨ custom_folder = "" ∨ folder_exists = false) :
    mark_unused_textures use_custom_folder custom_folder folder_exists loaded
      png_files = ⟨.CANCELLED, 0, []⟩ := by
  rcases h with h | h | h <;> simp [mark_unused_textures, h]

/-- Witness for C9 with the custom-folder toggle off. -/
theorem c9_unconfigured_folder_cancels_witness :
    ((false = false) ∨ ("/t" : String) = "" ∨ (true = false)) ∧
    mark_unused_textures false "/t" true ["/t/a.png"] ["/t/a.png", "/t/b.png"] =
      ⟨.CANCELLED, 0, []⟩ :=
  ⟨Or.inl rfl, c9_unconfigured_folder_cancels false "/t" true ["/t/a.png"]
    ["/t/a.png", "/t/b.png"] (Or.inl rfl)⟩

/-- Path `{cache_dir}/{material_name}_{resolution}`, the extraction directory. -/
def extract_path_for (cache_dir material_name resolution : String) : String :=
  cache_dir ++ "/" ++ material_name ++ "_" ++ resolution

/-- Path `{cache_dir}/{material_name}_{resolution}.zip`, the downloaded archive. -/
def zip_path_for (cache_dir material_name resolution : String) : String :=
  cache_dir ++ "/" ++ material_name ++ "_" ++ resolution ++ ".zip"

/-- The zip path is the extraction path with `.zip` appended. -/
theorem zip_path_eq (cache_dir material_name resolution : String) :
    zip_path_for cache_dir material_name resolution =
      extract_path_for cache_dir material_name resolution ++ ".zip" := rfl

/-- No path equals itself with `.zip` appended. -/
theorem ne_append_zip (p : String) : p ≠ p ++ ".zip" := by
  intro h
  have hl := congrArg String.length h
  rw [String.length_append] at hl
  have : (".zip" : String).length = 4 := rfl
  omega

/-- The download-and-extract step of `MATERIAL_OT_fetch_and_create.execute`
(lines 154–186), over the set of paths existing under the cache root: a
present extraction directory is used as-is; otherwise the archive is
downloaded to the zip path, extracted to the extraction directory, and the
zip file is unlinked after successful extraction.  A failed download reports
an error and cancels; a failed extraction reports an error and cancels with
the zip left behind. -/
def fetch_and_extract (paths : List String) (cache_dir material_name resolution : String)
    (download_ok extract_ok : Bool) : List String × OpResult :=
  let extract_path := extract_path_for cache_dir material_name resolution
  let zip_path := zip_path_for cache_dir material_name resolution
  if extract_path ∈ paths then (paths, .FINISHED)
  else if ¬download_ok then (paths, .CANCELLED)
  else
    let paths1 := if zip_path ∈ paths then paths else zip_path :: paths
    if ¬extract_ok then (paths1, .CANCELLED)
    else
      let paths2 := extract_path :: paths1
      (paths2.filter (fun p => p ≠ zip_path), .FINISHED)

/-- C10: whenever the fetch-and-create operation downloads and successfully
extracts a material archive (the extraction directory was not cached), the
zip file is deleted afterwards: the run finishes with the extraction
directory present and no zip archive for that material/resolution pair. -/
theorem c10_zip_removed_after_extract (paths : List String)
    (cache_dir material_name resolution : String)
    (hnc : extract_path_for cache_dir material_name resolution ∉ paths) :
    (fetch_and_extract paths cache_dir material_name resolution true true).2 =
      .FINISHED ∧
    extract_path_for cache_dir material_name resolution ∈
      (fetch_and_extract paths cache_dir material_name resolution true true).1 ∧
    zip_path_for cache_dir material_name resolution ∉
      (fetch_and_extract paths cache_dir material_name resolution true true).1 := by
  have hez : extract_path_for cache_dir material_name resolution ≠
      zip_path_for cache_dir material_name resolution := by
    rw [zip_path_eq]
    exact ne_append_zip _
  simp only [fetch_and_extract, hnc, if_false, not_true, ite_false, ite_true]
  refine ⟨trivial, ?_, ?_⟩
  · simp [List.mem_filter, hez]
  · intro hmem
    have := (List.mem_filter.mp hmem).2
    simp at this

/-- Witness for C10 on an empty cache. -/
theorem c10_zip_removed_after_extract_witness :
    (extract_path_for "c" "Rock035" "2K" ∉ ([] : List String)) ∧
    ((fetch_and_extract [] "c" "Rock035" "2K" true true).2 = .FINISHED ∧
    extract_path_for "c" "Rock035" "2K" ∈
      (fetch_and_extract [] "c" "Rock035" "2K" true true).1 ∧
    zip_path_for "c" "Rock035" "2K" ∉
      (fetch_and_extract [] "c" "Rock035" "2K" true true).1) :=
  ⟨by decide, c10_zip_removed_after_extract [] "c" "Rock035" "2K" (by decide)⟩
